import Mathlib

/-! # k8s-namespace-limiter: the admission decision of `namespaceLimiter.Validate`

A shallow embedding of `src/main.go`.  The validating webhook receives a decoded
object, lists the namespaces of the cluster through its clientset, counts the
names matched by the configured regular expression and compares the count with
the configured maximum.

Modelling choices, each following the Go source:

* `regexp.Regexp` is a library type; a compiled pattern is represented by its
  `MatchString` function, a total function from strings to booleans.
* `kubernetes.Interface` is used for one call, `CoreV1().Namespaces().List`;
  the clientset is represented by the answer of that call, either a
  `NamespaceList` or an error.
* A Go slice never has more than `2^63 - 1` elements, its length being an
  `int`; `NamespaceList` carries that bound.  The counter `matchingNamespaces`
  is a Go `int`, incremented with 64-bit two's complement wrap-around.
* `nl.logger.Infof` and the store query are effects; they are recorded, in
  order, in the `trace` of the value returned by the model.
-/

/-- Go `error` values, identified by the text `Error()` returns. -/
structure GoError where
  msg : String
deriving DecidableEq, Repr

/-- The part of `corev1.Namespace` read by the webhook: `ObjectMeta.Name`. -/
structure Namespace where
  Name : String
deriving DecidableEq, Repr

/-- Upper bound (exclusive) on the length of a Go slice: `2^63`. -/
def sliceCap : Nat := 9223372036854775808

/-- The answer `corev1.NamespaceList` of a successful list query. -/
structure NamespaceList where
  Items : List Namespace
  len_lt : Items.length < sliceCap

/-- A `metav1.Object` handed to the validator: the type assertion
`obj.(*corev1.Namespace)` succeeds on `ns`, the namespace decoded from the
admission request, and fails on `other` (any other dynamic type, or the nil
interface). -/
inductive Object where
  | ns (namespace_ : Namespace)
  | other (kind : String)
deriving DecidableEq, Repr

/-- A compiled `*regexp.Regexp`, seen through `MatchString`. -/
structure Regexp where
  MatchString : String → Bool

/-- The clientset, seen through `CoreV1().Namespaces().List(ListOptions{})`. -/
structure Clientset where
  listNamespaces : Except GoError NamespaceList

/-- `validatingwh.ValidatorResult`; the default is Go's zero value. -/
structure ValidatorResult where
  Valid : Bool := false
  Message : String := ""
deriving DecidableEq, Repr

/-- The receiver of `Validate`.  `maxNumberNamespaces` is a Go `int`. -/
structure namespaceLimiter where
  namespaceRegex : Regexp
  maxNumberNamespaces : Int
  clientset : Clientset

/-- Effects performed by `Validate`, in program order. -/
inductive Event where
  | listQuery
  | infof (line : String)
deriving DecidableEq, Repr

/-- The three values returned by `Validate`, with the trace of its effects. -/
structure ValidateReturn where
  allowed : Bool
  result : ValidatorResult
  err : Option GoError
  trace : List Event
deriving DecidableEq, Repr

/-- Wrap-around of Go `int` arithmetic: 64 bits, two's complement. -/
def wrapInt64 (x : Int) : Int := (x + 9223372036854775808) % 18446744073709551616 - 9223372036854775808

/-- The verb `%d` of `fmt` applied to an `int`: decimal digits, `-` in front
of a negative number. -/
def fmtD (n : Int) : String := toString n

/-- The loop of lines 41-46, started with counter `m`. -/
def countLoop (re : Regexp) : List Namespace → Int → Int
  | [], m => m
  | item :: rest, m =>
      countLoop re rest (if re.MatchString item.Name then wrapInt64 (m + 1) else m)

/-- The text built by `fmt.Sprintf` on line 52. -/
def deniedMessage (matchingNamespaces : Int) (name : String) : String :=
  "too many (" ++ fmtD matchingNamespaces ++ ") namespaces matching regex. " ++ name
    ++ " namespace denied"

/-- The log line of line 49. -/
def deniedLog (name : String) (matchingNamespaces : Int) : String :=
  "namespace " ++ name ++ " denied, currently " ++ fmtD matchingNamespaces
    ++ " namespaces match the regex"

/-- The log line of line 57. -/
def validLog (name : String) : String := "namespace " ++ name ++ " is valid"

/-- The method `(*namespaceLimiter).Validate` of `src/main.go`, lines 29-63. -/
def namespaceLimiter.Validate (nl : namespaceLimiter) (obj : Object) : ValidateReturn :=
  match obj with
  | .other _ => ⟨false, {}, some ⟨"not a namespace"⟩, []⟩
  | .ns namespace_ =>
    match nl.clientset.listNamespaces with
    | .error err => ⟨false, {}, some err, [.listQuery]⟩
    | .ok namespaces =>
      let matchingNamespaces := countLoop nl.namespaceRegex namespaces.Items 0
      if matchingNamespaces ≥ nl.maxNumberNamespaces then
        ⟨false, { Valid := false, Message := deniedMessage matchingNamespaces namespace_.Name },
          none, [.listQuery, .infof (deniedLog namespace_.Name matchingNamespaces)]⟩
      else
        ⟨true, { Valid := true, Message := "namespace is valid" },
          none, [.listQuery, .infof (validLog namespace_.Name)]⟩

/-! ## Vocabulary of the properties -/

/-- Number of names of the snapshot matched by the pattern. -/
def matchCount (re : Regexp) (items : List Namespace) : Nat :=
  items.countP (fun item => re.MatchString item.Name)

/-- A limiter whose store answers the list query with the snapshot `S`. -/
def limiterOn (re : Regexp) (L : Int) (S : NamespaceList) : namespaceLimiter :=
  ⟨re, L, ⟨.ok S⟩⟩

/-- A limiter whose store fails the list query with the error `e`. -/
def limiterFailing (re : Regexp) (L : Int) (e : GoError) : namespaceLimiter :=
  ⟨re, L, ⟨.error e⟩⟩

/-- The text `part` occurs in `msg` as a contiguous run of characters. -/
def embeds (msg part : String) : Prop := part.data <:+: msg.data

instance (msg part : String) : Decidable (embeds msg part) := by
  unfold embeds; infer_instance

/-- The pattern `^t` of the tests: the name starts with the letter t. -/
def caretT : Regexp := ⟨fun s => s.data.head? == some 't'⟩

/-- The pattern `.*` of the tests: every name matches. -/
def dotStar : Regexp := ⟨fun _ => true⟩

/-- A snapshot given by a short list of names (at most 2^63 - 1 of them). -/
def snapshotOf (names : List String) (h : (names.map Namespace.mk).length < sliceCap) :
    NamespaceList := ⟨names.map Namespace.mk, h⟩

/-- An allow decision: boolean true, `Valid` true, no error. -/
def ValidateReturn.allows (r : ValidateReturn) : Prop :=
  r.allowed = true ∧ r.result.Valid = true ∧ r.err = none

/-- A deny decision: boolean false, `Valid` false, no error. -/
def ValidateReturn.denies (r : ValidateReturn) : Prop :=
  r.allowed = false ∧ r.result.Valid = false ∧ r.err = none

instance (r : ValidateReturn) : Decidable r.allows := by
  unfold ValidateReturn.allows; infer_instance

instance (r : ValidateReturn) : Decidable r.denies := by
  unfold ValidateReturn.denies; infer_instance

/-- Serialized admissions: the candidates `cs` are decided one at a time, each
against the snapshot holding the initial population and every candidate
admitted before it; an allowed candidate joins the population. -/
def admitSerially (re : Regexp) (L : Int) :
    (cs : List Namespace) → (S : NamespaceList) → S.Items.length + cs.length < sliceCap →
      NamespaceList
  | [], S, _ => S
  | c :: cs, S, h =>
      if ((limiterOn re L S).Validate (.ns c)).allowed then
        admitSerially re L cs ⟨c :: S.Items, by simp only [List.length_cons] at h ⊢; omega⟩
          (by simp only [List.length_cons] at h ⊢; omega)
      else
        admitSerially re L cs S (by simp only [List.length_cons] at h; omega)

/-! ## The counter -/

theorem wrapInt64_of_range (x : Int) (h0 : 0 ≤ x) (h1 : x < 9223372036854775808) :
    wrapInt64 x = x := by
  unfold wrapInt64
  omega

theorem matchCount_le_length (re : Regexp) (items : List Namespace) :
    matchCount re items ≤ items.length :=
  List.countP_le_length _

theorem countLoop_eq (re : Regexp) :
    ∀ (items : List Namespace) (m : Int), 0 ≤ m → m + items.length < 9223372036854775808 →
      countLoop re items m = m + matchCount re items := by
  intro items
  induction items with
  | nil => intro m _ _; simp [countLoop, matchCount]
  | cons item rest ih =>
    intro m h0 h1
    simp only [List.length_cons, Nat.cast_add, Nat.cast_one] at h1
    by_cases hm : re.MatchString item.Name = true
    · have hw : wrapInt64 (m + 1) = m + 1 := wrapInt64_of_range _ (by omega) (by omega)
      have hc : matchCount re (item :: rest) = matchCount re rest + 1 := by
        simp [matchCount, List.countP_cons, hm]
      rw [countLoop, if_pos hm, hw, ih (m + 1) (by omega) (by omega), hc]
      push_cast; ring
    · have hc : matchCount re (item :: rest) = matchCount re rest := by
        simp [matchCount, List.countP_cons, hm]
      rw [countLoop, if_neg hm, ih m h0 (by omega), hc]

theorem countLoop_snapshot (re : Regexp) (S : NamespaceList) :
    countLoop re S.Items 0 = (matchCount re S.Items : Int) := by
  have h := S.len_lt
  unfold sliceCap at h
  rw [countLoop_eq re S.Items 0 (le_refl _) (by omega)]
  simp

/-- The value returned for a namespace candidate once the store has listed `S`. -/
theorem Validate_listed (re : Regexp) (L : Int) (S : NamespaceList) (c : Namespace) :
    (limiterOn re L S).Validate (.ns c) =
      if (matchCount re S.Items : Int) ≥ L then
        ⟨false, ⟨false, deniedMessage (matchCount re S.Items) c.Name⟩, none,
          [.listQuery, .infof (deniedLog c.Name (matchCount re S.Items))]⟩
      else
        ⟨true, ⟨true, "namespace is valid"⟩, none, [.listQuery, .infof (validLog c.Name)]⟩ := by
  simp only [namespaceLimiter.Validate, limiterOn, countLoop_snapshot]

theorem Validate_listed_allowed (re : Regexp) (L : Int) (S : NamespaceList) (c : Namespace) :
    ((limiterOn re L S).Validate (.ns c)).allowed = decide ((matchCount re S.Items : Int) < L) := by
  rw [Validate_listed]
  by_cases h : (matchCount re S.Items : Int) ≥ L
  · rw [if_pos h]; simp; omega
  · rw [if_neg h]; simp; omega

theorem Validate_listed_valid (re : Regexp) (L : Int) (S : NamespaceList) (c : Namespace) :
    ((limiterOn re L S).Validate (.ns c)).result.Valid
      = decide ((matchCount re S.Items : Int) < L) := by
  rw [Validate_listed]
  by_cases h : (matchCount re S.Items : Int) ≥ L
  · rw [if_pos h]; simp; omega
  · rw [if_neg h]; simp; omega

theorem Validate_listed_err (re : Regexp) (L : Int) (S : NamespaceList) (c : Namespace) :
    ((limiterOn re L S).Validate (.ns c)).err = none := by
  rw [Validate_listed]
  split <;> rfl

theorem embeds_middle (a b c : String) : embeds (a ++ b ++ c) b := by
  unfold embeds
  exact ⟨a.data, c.data, by simp [String.data_append]⟩

/-! ## The claims -/

/-- C1: once the store has listed the snapshot `S`, `Validate` returns no error
for a namespace candidate, and its boolean and the `Valid` field of its result
are both true exactly when the number of names of `S` matching the pattern is
strictly less than the limit, both false exactly when it is at least the limit;
so `L` matches deny and `L - 1` matches allow. -/
theorem C1_validate_compares_count_with_limit (re : Regexp) (L : Int) (S : NamespaceList)
    (c : Namespace) :
    ((limiterOn re L S).Validate (.ns c)).err = none
    ∧ (((limiterOn re L S).Validate (.ns c)).allowed = true
        ↔ (matchCount re S.Items : Int) < L)
    ∧ (((limiterOn re L S).Validate (.ns c)).result.Valid = true
        ↔ (matchCount re S.Items : Int) < L)
    ∧ (((limiterOn re L S).Validate (.ns c)).allowed = false
        ↔ L ≤ (matchCount re S.Items : Int))
    ∧ (((limiterOn re L S).Validate (.ns c)).result.Valid = false
        ↔ L ≤ (matchCount re S.Items : Int))
    ∧ ((matchCount re S.Items : Int) = L → ((limiterOn re L S).Validate (.ns c)).denies)
    ∧ ((matchCount re S.Items : Int) = L - 1 → ((limiterOn re L S).Validate (.ns c)).allows) := by
  have ha := Validate_listed_allowed re L S c
  have hv := Validate_listed_valid re L S c
  have he := Validate_listed_err re L S c
  refine ⟨he, ?_, ?_, ?_, ?_, ?_, ?_⟩
  · rw [ha]; simp
  · rw [hv]; simp
  · rw [ha]; simp
  · rw [hv]; simp
  · intro h
    refine ⟨?_, ?_, he⟩
    · rw [ha]; simp; omega
    · rw [hv]; simp; omega
  · intro h
    refine ⟨?_, ?_, he⟩
    · rw [ha]; simp; omega
    · rw [hv]; simp; omega

/-- C2 (as stated, refuted): with pattern `^t`, limit 1, the snapshot
test, t2 (two matches, so the candidate dev is denied), the message embeds the
count 2 and the name dev, and does not embed the limit 1. -/
theorem C2_message_omits_limit :
    (1 : Int) ≤ matchCount caretT (snapshotOf ["test", "t2"] (by decide)).Items
    ∧ ((limiterOn caretT 1 (snapshotOf ["test", "t2"] (by decide))).Validate
        (.ns ⟨"dev"⟩)).result.Message
        = "too many (2) namespaces matching regex. dev namespace denied"
    ∧ ¬ embeds ((limiterOn caretT 1 (snapshotOf ["test", "t2"] (by decide))).Validate
        (.ns ⟨"dev"⟩)).result.Message (fmtD 1) := by
  decide

/-- C2 (amended): when the store lists `S` and the number of matches is at
least the limit, the message of the result is the text
too many (COUNT) namespaces matching regex. NAME namespace denied; it embeds
the observed match count and the candidate's name. -/
theorem C2_message_embeds_count_and_name (re : Regexp) (L : Int) (S : NamespaceList)
    (c : Namespace) (h : L ≤ (matchCount re S.Items : Int)) :
    ((limiterOn re L S).Validate (.ns c)).result.Message
        = "too many (" ++ fmtD (matchCount re S.Items) ++ ") namespaces matching regex. "
            ++ c.Name ++ " namespace denied"
    ∧ embeds ((limiterOn re L S).Validate (.ns c)).result.Message (fmtD (matchCount re S.Items))
    ∧ embeds ((limiterOn re L S).Validate (.ns c)).result.Message c.Name := by
  have hm : ((limiterOn re L S).Validate (.ns c)).result.Message
      = "too many (" ++ fmtD (matchCount re S.Items) ++ ") namespaces matching regex. "
            ++ c.Name ++ " namespace denied" := by
    rw [Validate_listed, if_pos (ge_iff_le.mpr h)]
    rfl
  refine ⟨hm, ?_, ?_⟩
  · rw [hm]
    have := embeds_middle "too many (" (fmtD (matchCount re S.Items))
      (") namespaces matching regex. " ++ c.Name ++ " namespace denied")
    simpa [String.append_assoc] using this
  · rw [hm]
    exact embeds_middle ("too many (" ++ fmtD (matchCount re S.Items)
      ++ ") namespaces matching regex. ") c.Name " namespace denied"

theorem C2_message_embeds_count_and_name_witness :
    (1 : Int) ≤ (matchCount caretT (snapshotOf ["test", "t2"] (by decide)).Items : Int)
    ∧ embeds ((limiterOn caretT 1 (snapshotOf ["test", "t2"] (by decide))).Validate
        (.ns ⟨"dev"⟩)).result.Message
        (fmtD (matchCount caretT (snapshotOf ["test", "t2"] (by decide)).Items))
    ∧ embeds ((limiterOn caretT 1 (snapshotOf ["test", "t2"] (by decide))).Validate
        (.ns ⟨"dev"⟩)).result.Message "dev" :=
  ⟨by decide, (C2_message_embeds_count_and_name caretT 1
      (snapshotOf ["test", "t2"] (by decide)) ⟨"dev"⟩ (by decide)).2⟩

/-- C3: when the list query of the store fails with the error `e`, `Validate`
returns, for every namespace candidate, pattern and limit (0 included), the
boolean false, the zero-valued result (Valid false, empty Message) and exactly
the error `e`; the outcome is neither an allow nor a deny decision. -/
theorem C3_store_failure_is_returned (re : Regexp) (L : Int) (e : GoError) (c : Namespace) :
    (limiterFailing re L e).Validate (.ns c) = ⟨false, ⟨false, ""⟩, some e, [.listQuery]⟩
    ∧ (limiterFailing re 0 e).Validate (.ns c) = ⟨false, ⟨false, ""⟩, some e, [.listQuery]⟩
    ∧ ¬ ((limiterFailing re L e).Validate (.ns c)).allows
    ∧ ¬ ((limiterFailing re L e).Validate (.ns c)).denies := by
  refine ⟨rfl, rfl, ?_, ?_⟩
  · simp [ValidateReturn.allows, namespaceLimiter.Validate, limiterFailing]
  · simp [ValidateReturn.denies, namespaceLimiter.Validate, limiterFailing]

/-- C4: for an object that is not a namespace, whatever the pattern, the limit
and the clientset (a failing store and limit 0 included), `Validate` returns the
boolean false, the zero-valued result and the error with text not a namespace;
no store query is made (the trace is empty) and the outcome is neither an allow
nor a deny decision. -/
theorem C4_not_a_namespace (nl : namespaceLimiter) (kind : String) :
    nl.Validate (.other kind) = ⟨false, ⟨false, ""⟩, some ⟨"not a namespace"⟩, []⟩
    ∧ ¬ (nl.Validate (.other kind)).allows
    ∧ ¬ (nl.Validate (.other kind)).denies := by
  refine ⟨rfl, ?_, ?_⟩
  · simp [ValidateReturn.allows, namespaceLimiter.Validate]
  · simp [ValidateReturn.denies, namespaceLimiter.Validate]

/-- C5: with limit 0, for every pattern, every listed snapshot (the empty one
included) and every namespace candidate, `Validate` returns a deny decision:
boolean false, Valid false, nil error. -/
theorem C5_limit_zero_denies (re : Regexp) (S : NamespaceList) (c : Namespace) :
    ((limiterOn re 0 S).Validate (.ns c)).denies := by
  refine ⟨?_, ?_, Validate_listed_err re 0 S c⟩
  · rw [Validate_listed_allowed]; simp
  · rw [Validate_listed_valid]; simp

theorem matchCount_cons_le (re : Regexp) (c : Namespace) (items : List Namespace) :
    matchCount re (c :: items) ≤ matchCount re items + 1 := by
  unfold matchCount
  rw [List.countP_cons]
  split <;> omega

theorem admitSerially_le (re : Regexp) (L : Int) :
    ∀ (cs : List Namespace) (S : NamespaceList) (h : S.Items.length + cs.length < sliceCap),
      (matchCount re S.Items : Int) ≤ L →
        (matchCount re (admitSerially re L cs S h).Items : Int) ≤ L := by
  intro cs
  induction cs with
  | nil => intro S h hS; simpa [admitSerially] using hS
  | cons c cs ih =>
    intro S h hS
    rw [admitSerially]
    split
    · rename_i ha
      rw [Validate_listed_allowed] at ha
      have hlt : (matchCount re S.Items : Int) < L := by simpa using ha
      apply ih
      have := matchCount_cons_le re c S.Items
      show (matchCount re (c :: S.Items) : Int) ≤ L
      omega
    · exact ih S _ hS

/-- C6: the limit is the maximum number of matching namespaces that coexist.
If the snapshot `S` has at most `L` matches and `Validate` allows the candidate
`c` against `S`, then `S` with `c` added has at most `L` matches; and after any
sequence of candidates decided one at a time, each against the snapshot holding
every candidate admitted before it, the number of matches is at most `L`. -/
theorem C6_limit_bounds_coexisting (re : Regexp) (L : Int) (S : NamespaceList)
    (hS : (matchCount re S.Items : Int) ≤ L) :
    (∀ c : Namespace, ((limiterOn re L S).Validate (.ns c)).allowed = true →
        (matchCount re (c :: S.Items) : Int) ≤ L)
    ∧ (∀ (cs : List Namespace) (h : S.Items.length + cs.length < sliceCap),
        (matchCount re (admitSerially re L cs S h).Items : Int) ≤ L) := by
  constructor
  · intro c ha
    rw [Validate_listed_allowed] at ha
    have hlt : (matchCount re S.Items : Int) < L := by simpa using ha
    have := matchCount_cons_le re c S.Items
    omega
  · intro cs h
    exact admitSerially_le re L cs S h hS

theorem C6_limit_bounds_coexisting_witness :
    (matchCount caretT (snapshotOf ["test"] (by decide)).Items : Int) ≤ 3
    ∧ ((limiterOn caretT 3 (snapshotOf ["test"] (by decide))).Validate (.ns ⟨"test2"⟩)).allowed
        = true
    ∧ (matchCount caretT (⟨"test2"⟩ :: (snapshotOf ["test"] (by decide)).Items) : Int) ≤ 3
    ∧ (admitSerially caretT 3 [⟨"test2"⟩, ⟨"test3"⟩, ⟨"test4"⟩]
        (snapshotOf ["test"] (by decide)) (by decide)).Items = [⟨"test3"⟩, ⟨"test2"⟩, ⟨"test"⟩]
    ∧ (matchCount caretT (admitSerially caretT 3 [⟨"test2"⟩, ⟨"test3"⟩, ⟨"test4"⟩]
        (snapshotOf ["test"] (by decide)) (by decide)).Items : Int) ≤ 3 :=
  ⟨by decide, by decide,
    (C6_limit_bounds_coexisting caretT 3 (snapshotOf ["test"] (by decide)) (by decide)).1
      ⟨"test2"⟩ (by decide),
    by decide,
    (C6_limit_bounds_coexisting caretT 3 (snapshotOf ["test"] (by decide)) (by decide)).2
      [⟨"test2"⟩, ⟨"test3"⟩, ⟨"test4"⟩] (by decide)⟩

/-- C7: the candidate is evaluated against the snapshot only, never counting
itself: for a listed snapshot `S` and any two namespace candidates, whether or
not their names match, `Validate` returns the same boolean (and the same Valid
field) for both, equal to the comparison of the number of matches in `S` with
the limit. -/
theorem C7_decision_ignores_candidate (re : Regexp) (L : Int) (S : NamespaceList)
    (c1 c2 : Namespace) :
    ((limiterOn re L S).Validate (.ns c1)).allowed = ((limiterOn re L S).Validate (.ns c2)).allowed
    ∧ ((limiterOn re L S).Validate (.ns c1)).result.Valid
        = ((limiterOn re L S).Validate (.ns c2)).result.Valid
    ∧ ((limiterOn re L S).Validate (.ns c1)).allowed
        = decide ((matchCount re S.Items : Int) < L) := by
  simp only [Validate_listed_allowed, Validate_listed_valid, and_self]

/-- C8: against the empty snapshot, with a positive limit, `Validate` returns
for every pattern and namespace candidate the allow decision: boolean true,
Valid true, Message namespace is valid, nil error. -/
theorem C8_empty_snapshot_allows (re : Regexp) (L : Int) (hL : 0 < L) (c : Namespace) :
    matchCount re [] = 0
    ∧ ((limiterOn re L ⟨[], by decide⟩).Validate (.ns c)).allowed = true
    ∧ ((limiterOn re L ⟨[], by decide⟩).Validate (.ns c)).result = ⟨true, "namespace is valid"⟩
    ∧ ((limiterOn re L ⟨[], by decide⟩).Validate (.ns c)).err = none := by
  have h : ¬ ((matchCount re (⟨[], by decide⟩ : NamespaceList).Items : Int) ≥ L) := by
    simp [matchCount]; exact hL
  rw [Validate_listed, if_neg h]
  exact ⟨rfl, rfl, rfl, rfl⟩

theorem C8_empty_snapshot_allows_witness :
    (0 : Int) < 1
    ∧ ((limiterOn dotStar 1 ⟨[], by decide⟩).Validate (.ns ⟨"test"⟩)).allowed = true
    ∧ ((limiterOn dotStar 1 ⟨[], by decide⟩).Validate (.ns ⟨"test"⟩)).result
        = ⟨true, "namespace is valid"⟩
    ∧ ((limiterOn dotStar 1 ⟨[], by decide⟩).Validate (.ns ⟨"test"⟩)).err = none :=
  ⟨by decide, (C8_empty_snapshot_allows dotStar 1 (by decide) ⟨"test"⟩).2⟩

/-- C9: the check-then-act race, as a property of the decision function: there
are a pattern, a limit, a snapshot `S` and two candidates with matching names
such that `Validate` allows each of them against `S`, denies the second against
`S` with the first added, and admitting both leaves more than `L` matches. -/
theorem C9_check_then_act_race :
    ∃ (re : Regexp) (L : Int) (S S1 : NamespaceList) (c1 c2 : Namespace),
      re.MatchString c1.Name = true ∧ re.MatchString c2.Name = true
      ∧ ((limiterOn re L S).Validate (.ns c1)).allows
      ∧ ((limiterOn re L S).Validate (.ns c2)).allows
      ∧ S1.Items = c1 :: S.Items
      ∧ ((limiterOn re L S1).Validate (.ns c2)).denies
      ∧ L < (matchCount re (c2 :: c1 :: S.Items) : Int) :=
  ⟨caretT, 1, snapshotOf [] (by decide), snapshotOf ["test1"] (by decide), ⟨"test1"⟩, ⟨"test2"⟩,
    by decide⟩

/-- C10: the decision is monotone in the population.  If every element of the
snapshot `S` occurs in `S'` (with multiplicity, in any order, `S'` possibly
holding more), then a candidate denied against `S` is denied against `S'`, and
a candidate allowed against `S'` is allowed against `S`. -/
theorem C10_monotone_in_population (re : Regexp) (L : Int) (S S' : NamespaceList)
    (c : Namespace) (hsub : S.Items.Subperm S'.Items) :
    (((limiterOn re L S).Validate (.ns c)).denies → ((limiterOn re L S').Validate (.ns c)).denies)
    ∧ (((limiterOn re L S').Validate (.ns c)).allows
        → ((limiterOn re L S).Validate (.ns c)).allows) := by
  have hle : matchCount re S.Items ≤ matchCount re S'.Items := hsub.countP_le _
  simp only [ValidateReturn.denies, ValidateReturn.allows, Validate_listed_allowed,
    Validate_listed_valid, Validate_listed_err, and_true, and_self, decide_eq_true_eq,
    decide_eq_false_iff_not, not_lt]
  constructor <;> intro h <;> omega

theorem C10_monotone_in_population_witness :
    (snapshotOf ["test"] (by decide)).Items.Subperm (snapshotOf ["dev", "test"] (by decide)).Items
    ∧ ((limiterOn caretT 1 (snapshotOf ["test"] (by decide))).Validate (.ns ⟨"test2"⟩)).denies
    ∧ ((limiterOn caretT 1 (snapshotOf ["dev", "test"] (by decide))).Validate
        (.ns ⟨"test2"⟩)).denies :=
  ⟨(List.sublist_cons_self _ _).subperm, by decide,
    (C10_monotone_in_population caretT 1 (snapshotOf ["test"] (by decide))
      (snapshotOf ["dev", "test"] (by decide)) ⟨"test2"⟩ (List.sublist_cons_self _ _).subperm).1
      (by decide)⟩
